import Mathlib

/-
Verification development for the snake arcade game (snake_game.py) and the
cellular-automaton demo (sandbox_demo.py) of this repository.

The Python sources are shallowly embedded: the mutable `SnakeGame` object
becomes an immutable record, each mutating method becomes a function from the
record to a new record, and every random draw the code performs is reified as
oracle data passed in explicitly (the list of candidate cells consumed by
`generate_food`, and the three draws consumed by `generate_powerup`).
A per-tick `update` returns `Option SnakeGame`: `none` models the executions
in which the Python code would not complete the tick (the `while True` loop of
`generate_food` never finding a free cell on the supplied draws, or indexing
`self.snake[0]` on an empty body).
-/

namespace Snake

/-- GRID_WIDTH = WINDOW_WIDTH // CELL_SIZE = 800 // 20. -/
def GRID_WIDTH : Int := 40

/-- GRID_HEIGHT = WINDOW_HEIGHT // CELL_SIZE = 600 // 20. -/
def GRID_HEIGHT : Int := 30

/-- FPS constant of the source. -/
def FPS : Int := 12

/-- The four movement directions of the `Direction` enum. -/
inductive Direction
| UP
| DOWN
| LEFT
| RIGHT
deriving DecidableEq, Repr

/-- The unit delta each `Direction` enum value carries in the source. -/
def Direction.delta : Direction → Int × Int
| Direction.UP => (0, -1)
| Direction.DOWN => (0, 1)
| Direction.LEFT => (-1, 0)
| Direction.RIGHT => (1, 0)

/-- The `GameState` enum of the source. -/
inductive GameState
| PLAYING
| PAUSED
| GAME_OVER
| NEW_HIGH_SCORE
deriving DecidableEq, Repr

/-- The three power-up kinds, the `type` strings of class `PowerUp`. -/
inductive PowerUpType
| speed
| score
| invincible
deriving DecidableEq, Repr

/-- The `PowerUp` class: position, kind and remaining lifetime (the color
field is derived from the kind and carries no extra state). -/
structure PowerUp where
  x : Int
  y : Int
  type : PowerUpType
  lifetime : Int
deriving DecidableEq, Repr

/-- The mutable fields of class `SnakeGame` that take part in game logic.
`persist_log` is a ghost field recording every value written to
`high_score.txt` by `save_high_score` (most recent first). -/
structure SnakeGame where
  snake : List (Int × Int)
  direction : Direction
  food : Int × Int
  powerups : List PowerUp
  score : Int
  high_score : Int
  state : GameState
  invincible : Bool
  invincible_timer : Int
  speed : Int
  persist_log : List Int
deriving DecidableEq, Repr

/-- The random draws one call to `update` (or `reset_game`) may consume:
`foodCands` are the successive draws of the `while True` loop in
`generate_food`; `puSpawn` is the outcome of `random.random() < 0.3`;
`puPos` the two `randint` draws; `puType` the `random.choice`. -/
structure Oracle where
  foodCands : List (Int × Int)
  puSpawn : Bool
  puPos : Int × Int
  puType : PowerUpType
deriving DecidableEq, Repr

/-- `generate_food`: repeatedly draw a candidate cell and return the first one
not contained in the snake.  The draws are the explicit list `cands`; an empty
remainder models the loop still running (the Python loop has no other exit). -/
def generate_food : List (Int × Int) → List (Int × Int) → Option (Int × Int)
| [], _ => none
| c :: cs, snake => if c ∈ snake then generate_food cs snake else some c

/-- `generate_powerup`: with the drawn 30%-chance flag and while fewer than 2
power-ups are active, append a fresh power-up (lifetime 300) at the drawn
position provided the position avoids the snake and the current food. -/
def generate_powerup (g : SnakeGame) (o : Oracle) : SnakeGame :=
  if o.puSpawn = true ∧ g.powerups.length < 2 then
    if o.puPos ∉ g.snake ∧ o.puPos ≠ g.food then
      { g with powerups :=
          g.powerups ++ [{ x := o.puPos.1, y := o.puPos.2, type := o.puType, lifetime := 300 }] }
    else g
  else g

/-- `save_high_score`: when `score > high_score`, update the stored high score,
write it to `high_score.txt` (recorded in the ghost `persist_log`) and report
`True`; otherwise report `False` and change nothing. -/
def save_high_score (g : SnakeGame) : Bool × SnakeGame :=
  if g.high_score < g.score then
    (true, { g with high_score := g.score, persist_log := g.score :: g.persist_log })
  else
    (false, g)

/-- `game_over`: run `save_high_score` and enter `NEW_HIGH_SCORE` exactly when
it reported a new high score, `GAME_OVER` otherwise. -/
def game_over (g : SnakeGame) : SnakeGame :=
  let r := save_high_score g
  { r.2 with state := if r.1 then GameState.NEW_HIGH_SCORE else GameState.GAME_OVER }

/-- The keyboard keys whose `KEYDOWN` handling changes game state purely
(arrow keys and the pause key `p`); quit keys end the process and the restart
key runs `reset_game`, which is modelled separately. -/
inductive Key
| up
| down
| left
| right
| pKey
deriving DecidableEq, Repr

/-- One `KEYDOWN` branch of `handle_input`: while `PLAYING`, an arrow key
changes the direction unless it is the exact reverse of the current one, and
`p` pauses; while `PAUSED`, `p` resumes; otherwise the key changes nothing. -/
def handle_key (g : SnakeGame) (k : Key) : SnakeGame :=
  if g.state = GameState.PLAYING then
    match k with
    | Key.up => if g.direction ≠ Direction.DOWN then { g with direction := Direction.UP } else g
    | Key.down => if g.direction ≠ Direction.UP then { g with direction := Direction.DOWN } else g
    | Key.left => if g.direction ≠ Direction.RIGHT then { g with direction := Direction.LEFT } else g
    | Key.right => if g.direction ≠ Direction.LEFT then { g with direction := Direction.RIGHT } else g
    | Key.pKey => { g with state := GameState.PAUSED }
  else if g.state = GameState.PAUSED ∧ k = Key.pKey then
    { g with state := GameState.PLAYING }
  else g

/-- The wall test of `update`: `new_head[0] < 0 or new_head[0] >= GRID_WIDTH
or new_head[1] < 0 or new_head[1] >= GRID_HEIGHT`. -/
def outOfBounds (nh : Int × Int) : Prop :=
  nh.1 < 0 ∨ GRID_WIDTH ≤ nh.1 ∨ nh.2 < 0 ∨ GRID_HEIGHT ≤ nh.2

instance (nh : Int × Int) : Decidable ( outOfBounds nh) := by
  unfold outOfBounds
  exact inferInstance

/-- The invincible wall wrap: `(new_head[0] % GRID_WIDTH, new_head[1] % GRID_HEIGHT)`. -/
def wrapHead (nh : Int × Int) : Int × Int :=
  (nh.1 % GRID_WIDTH, nh.2 % GRID_HEIGHT)

/-- Effect of consuming one power-up inside the power-up loop of `update`. -/
def applyEffect (g : SnakeGame) (p : PowerUp) : SnakeGame :=
  match p.type with
  | PowerUpType.speed => { g with speed := g.speed + 2 }
  | PowerUpType.score => { g with score := g.score + 50 }
  | PowerUpType.invincible => { g with invincible := true, invincible_timer := 300 }

/-- One iteration of the power-up loop: apply the effect when the new head
sits on the power-up, otherwise leave the state alone. -/
def consumeStep (nh : Int × Int) (acc : SnakeGame) (p : PowerUp) : SnakeGame :=
  if nh = (p.x, p.y) then applyEffect acc p else acc

/-- The power-up collision loop of `update`: iterate over a copy of the list,
apply each power-up sitting at the new head and remove exactly those. -/
def powerupPhase (g : SnakeGame) (nh : Int × Int) : SnakeGame :=
  let g1 := g.powerups.foldl (consumeStep nh) g
  { g1 with powerups := g.powerups.filter (fun p => ¬ nh = (p.x, p.y)) }

/-- The invincibility countdown of `update`: while invincible, decrement the
timer and clear the flag once it reaches zero. -/
def timerPhase (g : SnakeGame) : SnakeGame :=
  if g.invincible = true then
    if g.invincible_timer - 1 ≤ 0 then
      { g with invincible_timer := g.invincible_timer - 1, invincible := false }
    else
      { g with invincible_timer := g.invincible_timer - 1 }
  else g

/-- Power-up aging at the end of `update`: each lifetime drops by one and the
expired power-ups are dropped. -/
def agePowerups (g : SnakeGame) : SnakeGame :=
  let aged := (g.powerups.map (fun p => { p with lifetime := p.lifetime - 1 })).filter
    (fun p => 0 < p.lifetime)
  { g with powerups := aged }

/-- The tail of `update` after the snake has moved: power-up consumption, then
the invincibility countdown, then power-up aging. -/
def postMove (g : SnakeGame) (nh : Int × Int) : SnakeGame :=
  agePowerups (timerPhase (powerupPhase g nh))

/-- The body of `update` from the self-collision check on, with `nh` the
(possibly wrapped) new head: on self collision while not invincible, end the
game; otherwise insert the head, handle food (score, food regeneration and a
power-up spawn attempt) or pop the tail, then run the post-move phases. -/
def moveAndEat (g : SnakeGame) (o : Oracle) (nh : Int × Int) : Option SnakeGame :=
  if nh ∈ g.snake ∧ g.invincible = false then some (game_over g)
  else
    if nh = g.food then
      match generate_food o.foodCands (nh :: g.snake) with
      | none => none
      | some f =>
          some (postMove
            (generate_powerup { g with snake := nh :: g.snake, score := g.score + 10, food := f } o)
            nh)
    else
      some (postMove { g with snake := (nh :: g.snake).dropLast } nh)

/-- `SnakeGame.update`: a no-op outside `PLAYING`; otherwise compute the
candidate head from the direction delta, resolve the wall (game over, or wrap
while invincible), then continue with `moveAndEat`. -/
def update (g : SnakeGame) (o : Oracle) : Option SnakeGame :=
  if g.state ≠ GameState.PLAYING then some g
  else
    match g.snake with
    | [] => none
    | (hx, hy) :: _ =>
      let nh := (hx + g.direction.delta.1, hy + g.direction.delta.2)
      if outOfBounds nh then
        if g.invincible = false then some (game_over g)
        else moveAndEat g o (wrapHead nh)
      else moveAndEat g o nh

/-- The candidate head of a tick together with the wall resolution applied to
it: wrapped when out of bounds, unchanged otherwise. -/
def effectiveHead (h : Int × Int) (d : Direction) : Int × Int :=
  if outOfBounds (h.1 + d.delta.1, h.2 + d.delta.2) then
    wrapHead (h.1 + d.delta.1, h.2 + d.delta.2)
  else (h.1 + d.delta.1, h.2 + d.delta.2)

/-- `reset_game` with the loaded high score as a parameter (the file read of
`load_high_score`): a one-segment snake at the grid center moving right, food
drawn avoiding it, everything else at its initial value. -/
def reset_game (cands : List (Int × Int)) (loaded_high : Int) : Option SnakeGame :=
  match generate_food cands [(GRID_WIDTH / 2, GRID_HEIGHT / 2)] with
  | none => none
  | some f =>
      some
        { snake := [(GRID_WIDTH / 2, GRID_HEIGHT / 2)]
          direction := Direction.RIGHT
          food := f
          powerups := []
          score := 0
          high_score := loaded_high
          state := GameState.PLAYING
          invincible := false
          invincible_timer := 0
          speed := FPS
          persist_log := [] }

/-- The game states reachable by the run loop: a (re)started session, a key
event processed by `handle_input`, or a completed call to `update`. -/
inductive Reach : SnakeGame → Prop
| init : ∀ (cands : List (Int × Int)) (hs : Int) (g : SnakeGame),
    reset_game cands hs = some g → Reach g
| key : ∀ (g : SnakeGame) (k : Key), Reach g → Reach (handle_key g k)
| tick : ∀ (g : SnakeGame) (o : Oracle) (g' : SnakeGame),
    Reach g → update g o = some g' → Reach g'

/-- All cells of the 40 × 30 grid. -/
def gridCells : List (Int × Int) :=
  (List.range 40).flatMap (fun x => (List.range 30).map (fun y => ((x : Int), (y : Int))))

end Snake

namespace Life

/-- `count_neighbors` of sandbox_demo.py: sum the 8 neighbors of `(x, y)`,
each coordinate wrapped modulo the grid dimensions. -/
def count_neighbors (grid : List (List Nat)) (x y : Int) : Nat :=
  let width : Int := (grid.headD []).length
  let height : Int := grid.length
  ([(-1, -1), (-1, 0), (-1, 1), (0, -1), (0, 1), (1, -1), (1, 0), (1, 1)] :
      List (Int × Int)).foldl
    (fun acc d =>
      acc + ((grid.getD ((y + d.2) % height).toNat []).getD ((x + d.1) % width).toNat 0))
    0

/-- `next_generation` of sandbox_demo.py: build a fresh zero grid and set each
cell to 1 exactly in the two survival/birth cases, reading only the old grid. -/
def next_generation (grid : List (List Nat)) : List (List Nat) :=
  let width := (grid.headD []).length
  let height := grid.length
  (List.range height).map (fun (y : Nat) =>
    (List.range width).map (fun (x : Nat) =>
      let neighbors := count_neighbors grid (x : Int) (y : Int)
      let cell := (grid.getD y []).getD x 0
      if cell = 1 ∧ (neighbors = 2 ∨ neighbors = 3) then 1
      else if cell = 0 ∧ neighbors = 3 then 1
      else 0))

end Life

namespace Snake

/-! ### Helper lemmas about the pieces of `update` -/

theorem generate_food_not_mem (cands : List (Int × Int)) :
    ∀ (s : List (Int × Int)) (f : Int × Int), generate_food cands s = some f → f ∉ s := by
  induction cands with
  | nil => intro s f h; simp [generate_food] at h
  | cons c cs ih =>
      intro s f h
      by_cases hc : c ∈ s
      · rw [generate_food, if_pos hc] at h
        exact ih s f h
      · rw [generate_food, if_neg hc] at h
        injection h with h
        subst h
        exact hc

theorem generate_food_full :
    ∀ (cands : List (Int × Int)), (∀ c ∈ cands, c ∈ gridCells) →
      generate_food cands gridCells = none := by
  intro cands
  induction cands with
  | nil => intro _; rfl
  | cons c cs ih =>
      intro h
      rw [generate_food, if_pos (h c (by simp))]
      exact ih (fun d hd => h d (by simp [hd]))

theorem applyEffect_snake (g : SnakeGame) (p : PowerUp) : (applyEffect g p).snake = g.snake := by
  rcases p with ⟨px, py, pt, pl⟩
  cases pt <;> rfl

theorem applyEffect_food (g : SnakeGame) (p : PowerUp) : (applyEffect g p).food = g.food := by
  rcases p with ⟨px, py, pt, pl⟩
  cases pt <;> rfl

theorem applyEffect_state (g : SnakeGame) (p : PowerUp) : (applyEffect g p).state = g.state := by
  rcases p with ⟨px, py, pt, pl⟩
  cases pt <;> rfl

theorem applyEffect_score_ne (g : SnakeGame) (p : PowerUp) (h : p.type ≠ PowerUpType.score) :
    (applyEffect g p).score = g.score := by
  rcases p with ⟨px, py, pt, pl⟩
  cases pt
  · rfl
  · exact absurd rfl h
  · rfl

theorem consumeStep_snake (nh : Int × Int) (g : SnakeGame) (p : PowerUp) :
    (consumeStep nh g p).snake = g.snake := by
  unfold consumeStep
  split
  · exact applyEffect_snake g p
  · rfl

theorem consumeStep_food (nh : Int × Int) (g : SnakeGame) (p : PowerUp) :
    (consumeStep nh g p).food = g.food := by
  unfold consumeStep
  split
  · exact applyEffect_food g p
  · rfl

theorem consumeStep_state (nh : Int × Int) (g : SnakeGame) (p : PowerUp) :
    (consumeStep nh g p).state = g.state := by
  unfold consumeStep
  split
  · exact applyEffect_state g p
  · rfl

theorem foldl_consume_snake (nh : Int × Int) :
    ∀ (l : List PowerUp) (g : SnakeGame), (l.foldl (consumeStep nh) g).snake = g.snake := by
  intro l
  induction l with
  | nil => intro g; rfl
  | cons p ps ih =>
      intro g
      rw [List.foldl_cons, ih, consumeStep_snake]

theorem foldl_consume_food (nh : Int × Int) :
    ∀ (l : List PowerUp) (g : SnakeGame), (l.foldl (consumeStep nh) g).food = g.food := by
  intro l
  induction l with
  | nil => intro g; rfl
  | cons p ps ih =>
      intro g
      rw [List.foldl_cons, ih, consumeStep_food]

theorem foldl_consume_state (nh : Int × Int) :
    ∀ (l : List PowerUp) (g : SnakeGame), (l.foldl (consumeStep nh) g).state = g.state := by
  intro l
  induction l with
  | nil => intro g; rfl
  | cons p ps ih =>
      intro g
      rw [List.foldl_cons, ih, consumeStep_state]

theorem foldl_consume_score (nh : Int × Int) :
    ∀ (l : List PowerUp) (g : SnakeGame),
      (∀ p ∈ l, (p.x, p.y) = nh → p.type ≠ PowerUpType.score) →
      (l.foldl (consumeStep nh) g).score = g.score := by
  intro l
  induction l with
  | nil => intro g _; rfl
  | cons p ps ih =>
      intro g h
      rw [List.foldl_cons, ih _ (fun q hq => h q (by simp [hq]))]
      unfold consumeStep
      split
      · next heq => exact applyEffect_score_ne g p (h p (by simp) heq.symm)
      · rfl

theorem powerupPhase_snake (g : SnakeGame) (nh : Int × Int) :
    (powerupPhase g nh).snake = g.snake := by
  unfold powerupPhase
  exact foldl_consume_snake nh g.powerups g

theorem powerupPhase_food (g : SnakeGame) (nh : Int × Int) :
    (powerupPhase g nh).food = g.food := by
  unfold powerupPhase
  exact foldl_consume_food nh g.powerups g

theorem powerupPhase_state (g : SnakeGame) (nh : Int × Int) :
    (powerupPhase g nh).state = g.state := by
  unfold powerupPhase
  exact foldl_consume_state nh g.powerups g

theorem powerupPhase_score (g : SnakeGame) (nh : Int × Int)
    (h : ∀ p ∈ g.powerups, (p.x, p.y) = nh → p.type ≠ PowerUpType.score) :
    (powerupPhase g nh).score = g.score := by
  unfold powerupPhase
  exact foldl_consume_score nh g.powerups g h

theorem timerPhase_snake (g : SnakeGame) : (timerPhase g).snake = g.snake := by
  unfold timerPhase
  split
  · split <;> rfl
  · rfl

theorem timerPhase_food (g : SnakeGame) : (timerPhase g).food = g.food := by
  unfold timerPhase
  split
  · split <;> rfl
  · rfl

theorem timerPhase_state (g : SnakeGame) : (timerPhase g).state = g.state := by
  unfold timerPhase
  split
  · split <;> rfl
  · rfl

theorem timerPhase_score (g : SnakeGame) : (timerPhase g).score = g.score := by
  unfold timerPhase
  split
  · split <;> rfl
  · rfl

theorem agePowerups_snake (g : SnakeGame) : (agePowerups g).snake = g.snake := rfl

theorem agePowerups_food (g : SnakeGame) : (agePowerups g).food = g.food := rfl

theorem agePowerups_state (g : SnakeGame) : (agePowerups g).state = g.state := rfl

theorem agePowerups_score (g : SnakeGame) : (agePowerups g).score = g.score := rfl

theorem postMove_snake (g : SnakeGame) (nh : Int × Int) : (postMove g nh).snake = g.snake := by
  unfold postMove
  rw [agePowerups_snake, timerPhase_snake, powerupPhase_snake]

theorem postMove_food (g : SnakeGame) (nh : Int × Int) : (postMove g nh).food = g.food := by
  unfold postMove
  rw [agePowerups_food, timerPhase_food, powerupPhase_food]

theorem postMove_state (g : SnakeGame) (nh : Int × Int) : (postMove g nh).state = g.state := by
  unfold postMove
  rw [agePowerups_state, timerPhase_state, powerupPhase_state]

theorem postMove_score (g : SnakeGame) (nh : Int × Int)
    (h : ∀ p ∈ g.powerups, (p.x, p.y) = nh → p.type ≠ PowerUpType.score) :
    (postMove g nh).score = g.score := by
  unfold postMove
  rw [agePowerups_score, timerPhase_score, powerupPhase_score g nh h]

theorem generate_powerup_snake (g : SnakeGame) (o : Oracle) :
    (generate_powerup g o).snake = g.snake := by
  unfold generate_powerup
  split
  · split <;> rfl
  · rfl

theorem generate_powerup_food (g : SnakeGame) (o : Oracle) :
    (generate_powerup g o).food = g.food := by
  unfold generate_powerup
  split
  · split <;> rfl
  · rfl

theorem generate_powerup_state (g : SnakeGame) (o : Oracle) :
    (generate_powerup g o).state = g.state := by
  unfold generate_powerup
  split
  · split <;> rfl
  · rfl

theorem generate_powerup_score (g : SnakeGame) (o : Oracle) :
    (generate_powerup g o).score = g.score := by
  unfold generate_powerup
  split
  · split <;> rfl
  · rfl

theorem generate_powerup_mem (g : SnakeGame) (o : Oracle) (p : PowerUp)
    (hp : p ∈ (generate_powerup g o).powerups) :
    p ∈ g.powerups ∨ ((p.x, p.y) = o.puPos ∧ o.puPos ∉ g.snake) := by
  unfold generate_powerup at hp
  split at hp
  · split at hp
    · next hfree =>
        simp only [List.mem_append, List.mem_singleton] at hp
        rcases hp with hp | hp
        · exact Or.inl hp
        · subst hp
          exact Or.inr ⟨rfl, hfree.1⟩
    · exact Or.inl hp
  · exact Or.inl hp

theorem game_over_snake (g : SnakeGame) : (game_over g).snake = g.snake := by
  unfold game_over save_high_score
  split <;> rfl

theorem game_over_food (g : SnakeGame) : (game_over g).food = g.food := by
  unfold game_over save_high_score
  split <;> rfl

theorem game_over_score (g : SnakeGame) : (game_over g).score = g.score := by
  unfold game_over save_high_score
  split <;> rfl

theorem game_over_powerups (g : SnakeGame) : (game_over g).powerups = g.powerups := by
  unfold game_over save_high_score
  split <;> rfl

theorem game_over_state_cases (g : SnakeGame) :
    (game_over g).state = GameState.GAME_OVER ∨ (game_over g).state = GameState.NEW_HIGH_SCORE := by
  unfold game_over save_high_score
  split
  · exact Or.inr rfl
  · exact Or.inl rfl

theorem game_over_state_not_playing (g : SnakeGame) :
    (game_over g).state ≠ GameState.PLAYING := by
  rcases game_over_state_cases g with h | h <;> rw [h] <;> intro hc <;> cases hc

end Snake

namespace Snake

theorem update_collision (g : SnakeGame) (o : Oracle) (hx hy : Int) (t : List (Int × Int))
    (hst : g.state = GameState.PLAYING)
    (hsn : g.snake = (hx, hy) :: t)
    (hinv : g.invincible = false)
    (hcol : outOfBounds (hx + g.direction.delta.1, hy + g.direction.delta.2) ∨
        (hx + g.direction.delta.1, hy + g.direction.delta.2) ∈ g.snake) :
    update g o = some (game_over g) := by
  rcases g with ⟨sn, dr, fd, pus, sc, hsv, st, inv, tm, sp, lg⟩
  simp only at hst hsn hinv hcol
  subst hst
  subst hinv
  subst hsn
  by_cases hb : outOfBounds (hx + dr.delta.1, hy + dr.delta.2)
  · simp [update, hb]
  · have hm : (hx + dr.delta.1, hy + dr.delta.2) ∈ (hx, hy) :: t := hcol.resolve_left hb
    simp [update, hb, moveAndEat, hm]

theorem update_inbounds (g : SnakeGame) (o : Oracle) (hx hy : Int) (t : List (Int × Int))
    (hst : g.state = GameState.PLAYING)
    (hsn : g.snake = (hx, hy) :: t)
    (hb : ¬ outOfBounds (hx + g.direction.delta.1, hy + g.direction.delta.2)) :
    update g o = moveAndEat g o (hx + g.direction.delta.1, hy + g.direction.delta.2) := by
  rcases g with ⟨sn, dr, fd, pus, sc, hsv, st, inv, tm, sp, lg⟩
  simp only at hst hsn hb
  subst hst
  subst hsn
  simp [update, hb]

theorem update_oob_invincible (g : SnakeGame) (o : Oracle) (hx hy : Int) (t : List (Int × Int))
    (hst : g.state = GameState.PLAYING)
    (hsn : g.snake = (hx, hy) :: t)
    (hinv : g.invincible = true)
    (hb : outOfBounds (hx + g.direction.delta.1, hy + g.direction.delta.2)) :
    update g o = moveAndEat g o (wrapHead (hx + g.direction.delta.1, hy + g.direction.delta.2)) := by
  rcases g with ⟨sn, dr, fd, pus, sc, hsv, st, inv, tm, sp, lg⟩
  simp only at hst hsn hinv hb
  subst hst
  subst hinv
  subst hsn
  simp [update, hb]

theorem update_empty (g : SnakeGame) (o : Oracle)
    (hst : g.state = GameState.PLAYING) (hsn : g.snake = []) : update g o = none := by
  rcases g with ⟨sn, dr, fd, pus, sc, hsv, st, inv, tm, sp, lg⟩
  simp only at hst hsn
  subst hst
  subst hsn
  simp [update]

theorem moveAndEat_cases (g g' : SnakeGame) (o : Oracle) (nh : Int × Int)
    (hup : moveAndEat g o nh = some g') :
    (nh ∈ g.snake ∧ g.invincible = false ∧ g' = game_over g) ∨
    (¬ (nh ∈ g.snake ∧ g.invincible = false) ∧ nh = g.food ∧
      ∃ f, generate_food o.foodCands (nh :: g.snake) = some f ∧
        g' = postMove
          (generate_powerup { g with snake := nh :: g.snake, score := g.score + 10, food := f } o)
          nh) ∨
    (¬ (nh ∈ g.snake ∧ g.invincible = false) ∧ nh ≠ g.food ∧
      g' = postMove { g with snake := (nh :: g.snake).dropLast } nh) := by
  unfold moveAndEat at hup
  split at hup
  · next hc =>
      injection hup with hup
      exact Or.inl ⟨hc.1, hc.2, hup.symm⟩
  · next hc =>
      split at hup
      · next hf =>
          cases hgen : generate_food o.foodCands (nh :: g.snake) with
          | none => rw [hgen] at hup; cases hup
          | some f =>
              rw [hgen] at hup
              injection hup with hup
              exact Or.inr (Or.inl ⟨hc, hf, f, rfl, hup.symm⟩)
      · next hf =>
          injection hup with hup
          exact Or.inr (Or.inr ⟨hc, hf, hup.symm⟩)

end Snake

namespace Snake

theorem moveAndEat_food_facts (g g' : SnakeGame) (o : Oracle) (e : Int × Int)
    (hup : moveAndEat g o e = some g')
    (hst' : g'.state = GameState.PLAYING) :
    (e = g.food →
      g'.snake.length = g.snake.length + 1 ∧
      g'.food ∉ g'.snake ∧
      ((∀ p ∈ g.powerups, (p.x, p.y) = e → p.type ≠ PowerUpType.score) →
        g'.score = g.score + 10)) ∧
    (e ≠ g.food → g'.snake.length = g.snake.length) := by
  rcases moveAndEat_cases g g' o e hup with
    ⟨_, _, hg⟩ | ⟨hnc, hf, f, hgen, hg⟩ | ⟨hnc, hf, hg⟩
  · rw [hg] at hst'
    exact absurd hst' (game_over_state_not_playing g)
  · constructor
    · intro _
      refine ⟨?_, ?_, ?_⟩
      · rw [hg, postMove_snake, generate_powerup_snake]
        simp
      · rw [hg, postMove_snake, generate_powerup_snake, postMove_food, generate_powerup_food]
        exact generate_food_not_mem o.foodCands (e :: g.snake) f hgen
      · intro hnopu
        rw [hg]
        rw [postMove_score _ _ ?hside, generate_powerup_score]
        case hside =>
          intro p hp hpe
          rcases generate_powerup_mem _ o p hp with hmem | ⟨hpos, hnin⟩
          · exact hnopu p hmem hpe
          · exact absurd (by rw [← hpos, hpe]; exact List.mem_cons_self e g.snake) hnin
    · intro hne
      exact absurd hf hne
  · constructor
    · intro he
      exact absurd he hf
    · intro _
      rw [hg, postMove_snake]
      simp [List.length_dropLast]

end Snake

namespace Snake

/-- The exact reverse of a direction. -/
def Direction.reverse : Direction → Direction
| Direction.UP => Direction.DOWN
| Direction.DOWN => Direction.UP
| Direction.LEFT => Direction.RIGHT
| Direction.RIGHT => Direction.LEFT

/-- The direction a key requests, if any. -/
def keyDirection : Key → Option Direction
| Key.up => some Direction.UP
| Key.down => some Direction.DOWN
| Key.left => some Direction.LEFT
| Key.right => some Direction.RIGHT
| Key.pKey => none

/-- The state `reset_game` produces when its food draw immediately yields
`(21, 15)` and the loaded high score is 0. -/
def startState : SnakeGame :=
  { snake := [(20, 15)], direction := Direction.RIGHT, food := (21, 15), powerups := [],
    score := 0, high_score := 0, state := GameState.PLAYING, invincible := false,
    invincible_timer := 0, speed := 12, persist_log := [] }

/-- An oracle with no food draws and no power-up spawn. -/
def nilOracle : Oracle :=
  { foodCands := [], puSpawn := false, puPos := (0, 0), puType := PowerUpType.speed }

/-- An oracle whose single food draw is `(22, 15)`, spawning nothing. -/
def foodOracle : Oracle :=
  { foodCands := [(22, 15)], puSpawn := false, puPos := (0, 0), puType := PowerUpType.speed }

/-- The state one tick of `update` after `startState` with `foodOracle`:
the snake ate the food at `(21, 15)`. -/
def midState : SnakeGame :=
  { startState with snake := [(21, 15), (20, 15)], food := (22, 15), score := 10 }

/-- Claim C4: for a candidate next head outside the grid bounds, with
`invincible = true` the tick completes with the head wrapped to
`(x mod GRID_WIDTH, y mod GRID_HEIGHT)` and the state still `PLAYING`
(no game-over transition); with `invincible = false` the identical geometry
makes the tick call `game_over`, moving the machine to `GAME_OVER` or
`NEW_HIGH_SCORE`. -/
theorem C4_wall_behavior (g : SnakeGame) (o : Oracle) (hx hy : Int) (t : List (Int × Int))
    (hst : g.state = GameState.PLAYING)
    (hsn : g.snake = (hx, hy) :: t)
    (hoob : outOfBounds (hx + g.direction.delta.1, hy + g.direction.delta.2)) :
    (g.invincible = true →
      ∀ g2, update g o = some g2 →
        g2.state = GameState.PLAYING ∧
        g2.snake.head? =
          some (wrapHead (hx + g.direction.delta.1, hy + g.direction.delta.2))) ∧
    (g.invincible = false →
      update g o = some (game_over g) ∧
      ((game_over g).state = GameState.GAME_OVER ∨
        (game_over g).state = GameState.NEW_HIGH_SCORE)) := by
  constructor
  · intro hinv g2 hup
    rw [update_oob_invincible g o hx hy t hst hsn hinv hoob] at hup
    rcases moveAndEat_cases g g2 o _ hup with
      ⟨_, hfalse, _⟩ | ⟨_, _, f, _, hg⟩ | ⟨_, _, hg⟩
    · rw [hinv] at hfalse
      cases hfalse
    · constructor
      · rw [hg, postMove_state, generate_powerup_state]
        exact hst
      · rw [hg, postMove_snake, generate_powerup_snake]
        rfl
    · constructor
      · rw [hg, postMove_state]
        exact hst
      · rw [hg, postMove_snake]
        show ((wrapHead _ :: g.snake).dropLast).head? = _
        rw [hsn, List.dropLast_cons₂]
        rfl
  · intro hinv
    exact ⟨update_collision g o hx hy t hst hsn hinv (Or.inl hoob), game_over_state_cases g⟩

/-- The state C4's invincible witness run ends in: head wrapped to the right
edge, timer decremented. -/
def c4State : SnakeGame :=
  { startState with snake := [(0, 15)], direction := Direction.LEFT, invincible := true, invincible_timer := 10 }

def c4Result : SnakeGame :=
  { c4State with snake := [(39, 15)], invincible_timer := 9 }

theorem C4_witness :
    c4Result.state = GameState.PLAYING ∧
    c4Result.snake.head? =
      some (wrapHead (0 + c4State.direction.delta.1, 15 + c4State.direction.delta.2)) :=
  (C4_wall_behavior c4State nilOracle 0 15 [] (by decide) (by decide) (by decide)).1
    (by decide) c4Result (by decide)

/-- Claim C5: at a game-over transition the stored high score is updated, and
a write to the persistent store happens, exactly when the ending score
strictly exceeds the previous high score (a tie changes nothing), and the
resulting state is `NEW_HIGH_SCORE` in precisely that case, `GAME_OVER`
otherwise. -/
theorem C5_high_score_strict (g : SnakeGame) :
    ((game_over g).state = GameState.NEW_HIGH_SCORE ↔ g.high_score < g.score) ∧
    ((game_over g).state = GameState.GAME_OVER ↔ ¬ g.high_score < g.score) ∧
    (game_over g).high_score = (if g.high_score < g.score then g.score else g.high_score) ∧
    (game_over g).persist_log =
      (if g.high_score < g.score then g.score :: g.persist_log else g.persist_log) := by
  by_cases h : g.high_score < g.score <;> simp [game_over, save_high_score, h]

/-- Claim C6: a direction-change input processed while `PLAYING` whose
requested direction is the exact reverse of the current direction is
rejected: the state, and in particular the direction, is unchanged. -/
theorem C6_reversal_rejected (g : SnakeGame) (k : Key)
    (hst : g.state = GameState.PLAYING)
    (hrev : keyDirection k = some g.direction.reverse) :
    handle_key g k = g ∧ (handle_key g k).direction = g.direction := by
  rcases g with ⟨sn, dr, fd, pus, sc, hsv, st, inv, tm, sp, lg⟩
  simp only at hst hrev
  subst hst
  have hk : handle_key ⟨sn, dr, fd, pus, sc, hsv, GameState.PLAYING, inv, tm, sp, lg⟩ k =
      ⟨sn, dr, fd, pus, sc, hsv, GameState.PLAYING, inv, tm, sp, lg⟩ := by
    cases k <;> cases dr <;> simp_all [handle_key, keyDirection, Direction.reverse]
  exact ⟨hk, by rw [hk]⟩

theorem C6_witness :
    handle_key startState Key.left = startState ∧
    (handle_key startState Key.left).direction = startState.direction :=
  C6_reversal_rejected startState Key.left (by decide) (by decide)

/-- Claim C7: on a tick classified as WallHit or SelfHit while not invincible,
`update` stops at the state transition: the snake, the food, the score and
the power-up list (with every lifetime) are exactly those of the previous
state. -/
theorem C7_collision_atomic (g : SnakeGame) (o : Oracle) (hx hy : Int) (t : List (Int × Int))
    (hst : g.state = GameState.PLAYING)
    (hsn : g.snake = (hx, hy) :: t)
    (hinv : g.invincible = false)
    (hcol : outOfBounds (hx + g.direction.delta.1, hy + g.direction.delta.2) ∨
        (hx + g.direction.delta.1, hy + g.direction.delta.2) ∈ g.snake) :
    update g o = some (game_over g) ∧
    (game_over g).snake = g.snake ∧
    (game_over g).food = g.food ∧
    (game_over g).score = g.score ∧
    (game_over g).powerups = g.powerups ∧
    ((game_over g).state = GameState.GAME_OVER ∨
      (game_over g).state = GameState.NEW_HIGH_SCORE) :=
  ⟨update_collision g o hx hy t hst hsn hinv hcol, game_over_snake g, game_over_food g,
    game_over_score g, game_over_powerups g, game_over_state_cases g⟩

def c7State : SnakeGame :=
  { startState with snake := [(0, 0)], direction := Direction.LEFT }

theorem C7_witness :
    update c7State nilOracle = some (game_over c7State) ∧
    (game_over c7State).snake = c7State.snake ∧
    (game_over c7State).food = c7State.food ∧
    (game_over c7State).score = c7State.score ∧
    (game_over c7State).powerups = c7State.powerups ∧
    ((game_over c7State).state = GameState.GAME_OVER ∨
      (game_over c7State).state = GameState.NEW_HIGH_SCORE) :=
  C7_collision_atomic c7State nilOracle 0 0 [] (by decide) (by decide) (by decide)
    (Or.inl (by decide))

/-- Claim C10: whenever the state is `PAUSED`, `GAME_OVER` or
`NEW_HIGH_SCORE`, one call to `update` returns the state unchanged: every
field — snake, direction, food, score, power-ups and their lifetimes,
invincible flag and its timer — is exactly as before. -/
theorem C10_update_noop_outside_playing (g : SnakeGame) (o : Oracle)
    (h : g.state ≠ GameState.PLAYING) : update g o = some g := by
  unfold update
  rw [if_pos h]

def pausedState : SnakeGame := { startState with state := GameState.PAUSED }

theorem C10_witness : update pausedState nilOracle = some pausedState :=
  C10_update_noop_outside_playing pausedState nilOracle (by decide)

end Snake

namespace Snake

/-- Claim C1 (amended): while Playing with `invincible = false`, a move whose
candidate new head lies anywhere in the current body — including the
soon-to-be-removed tail segment — is classified as a self-collision: the tick
calls `game_over` and the state leaves `PLAYING` (the source checks
`new_head in self.snake` before the tail is popped). -/
theorem C1_tail_collision_is_self_hit (g : SnakeGame) (o : Oracle) (hx hy : Int)
    (t : List (Int × Int))
    (hst : g.state = GameState.PLAYING)
    (hsn : g.snake = (hx, hy) :: t)
    (hinv : g.invincible = false)
    (hmem : (hx + g.direction.delta.1, hy + g.direction.delta.2) ∈ g.snake) :
    update g o = some (game_over g) ∧ (game_over g).state ≠ GameState.PLAYING :=
  ⟨update_collision g o hx hy t hst hsn hinv (Or.inr hmem), game_over_state_not_playing g⟩

theorem C1_witness :
    update ({ midState with direction := Direction.LEFT }) nilOracle =
      some (game_over ({ midState with direction := Direction.LEFT })) ∧
    (game_over ({ midState with direction := Direction.LEFT })).state ≠ GameState.PLAYING :=
  C1_tail_collision_is_self_hit ({ midState with direction := Direction.LEFT }) nilOracle
    21 15 [(20, 15)] (by decide) (by decide) (by decide) (by decide)

/-- The reachable state refuting claim C1: a two-segment snake about to move
onto its own tail, `(20, 15)`, which occurs exactly once in the body and is
not the food cell, so the move grows nothing and frees the tail cell. -/
def c1Bad : SnakeGame := { midState with direction := Direction.LEFT }

/-- Claim C1 counterexample: from a reachable state whose candidate new head
equals exactly the current tail segment (and no other body segment) on a
non-growth move while Playing and not invincible, `update` still ends the
game — here with a `NEW_HIGH_SCORE` transition — contradicting the claim that
such a move is not a self-collision. -/
theorem C1_counterexample :
    Reach c1Bad ∧
    c1Bad.state = GameState.PLAYING ∧
    c1Bad.invincible = false ∧
    c1Bad.snake = [(21, 15), (20, 15)] ∧
    (21 + c1Bad.direction.delta.1, 15 + c1Bad.direction.delta.2) = (20, 15) ∧
    c1Bad.snake.getLast? = some (20, 15) ∧
    c1Bad.snake.count (20, 15) = 1 ∧
    (20, 15) ≠ c1Bad.food ∧
    update c1Bad foodOracle = some (game_over c1Bad) ∧
    (game_over c1Bad).state = GameState.NEW_HIGH_SCORE := by
  refine ⟨?_, by decide, by decide, by decide, by decide, by decide, by decide, by decide,
    by decide, by decide⟩
  have h0 : Reach startState := Reach.init [(21, 15)] 0 startState (by decide)
  have h1 : Reach midState := Reach.tick startState foodOracle midState h0 (by decide)
  have h2 := Reach.key _ Key.up h1
  have h3 := Reach.key _ Key.left h2
  have he : handle_key (handle_key midState Key.up) Key.left = c1Bad := by decide
  rw [he] at h3
  exact h3

/-- Claim C2 (amended): a per-tick update taken while `invincible` is false,
from a state whose segment sequence has no duplicate positions, that
completes without ending the game, again yields a segment sequence with no
duplicate positions.  (While invincible the code skips the self-collision
check and duplicates can enter the body; see the counterexample.) -/
theorem C2_nodup_preserved (g g2 : SnakeGame) (o : Oracle)
    (hst : g.state = GameState.PLAYING)
    (hinv : g.invincible = false)
    (hnd : g.snake.Nodup)
    (hup : update g o = some g2)
    (hst2 : g2.state = GameState.PLAYING) :
    g2.snake.Nodup := by
  cases hsn : g.snake with
  | nil =>
      rw [update_empty g o hst hsn] at hup
      cases hup
  | cons hd t =>
      rcases hd with ⟨hx, hy⟩
      by_cases hb : outOfBounds (hx + g.direction.delta.1, hy + g.direction.delta.2)
      · rw [update_collision g o hx hy t hst hsn hinv (Or.inl hb)] at hup
        injection hup with hup
        rw [← hup] at hst2
        exact absurd hst2 (game_over_state_not_playing g)
      · rw [update_inbounds g o hx hy t hst hsn hb] at hup
        rcases moveAndEat_cases g g2 o _ hup with
          ⟨_, _, hg⟩ | ⟨hnc, _, f, _, hg⟩ | ⟨hnc, _, hg⟩
        · rw [hg] at hst2
          exact absurd hst2 (game_over_state_not_playing g)
        · have hnm : (hx + g.direction.delta.1, hy + g.direction.delta.2) ∉ g.snake :=
            fun hm => hnc ⟨hm, hinv⟩
          rw [hg, postMove_snake, generate_powerup_snake]
          exact List.nodup_cons.mpr ⟨hnm, hnd⟩
        · have hnm : (hx + g.direction.delta.1, hy + g.direction.delta.2) ∉ g.snake :=
            fun hm => hnc ⟨hm, hinv⟩
          rw [hg, postMove_snake]
          exact (List.dropLast_sublist _).nodup (List.nodup_cons.mpr ⟨hnm, hnd⟩)

theorem C2_witness : midState.snake.Nodup :=
  C2_nodup_preserved startState midState foodOracle (by decide) (by decide) (by decide)
    (by decide) (by decide)

/-- Oracle of the tick that eats the first food and spawns the invincibility
power-up at `(23, 15)`. -/
def c2O1 : Oracle :=
  { foodCands := [(22, 15)], puSpawn := true, puPos := (23, 15),
    puType := PowerUpType.invincible }

/-- Oracle of the tick that eats the second food, relocating it far away. -/
def c2O2 : Oracle :=
  { foodCands := [(30, 25)], puSpawn := false, puPos := (0, 0), puType := PowerUpType.speed }

def c2G1 : SnakeGame :=
  { startState with snake := [(21, 15), (20, 15)], food := (22, 15), score := 10, powerups := [{ x := 23, y := 15, type := PowerUpType.invincible, lifetime := 299 }] }

def c2G2 : SnakeGame :=
  { startState with snake := [(22, 15), (21, 15), (20, 15)], food := (30, 25), score := 20, powerups := [{ x := 23, y := 15, type := PowerUpType.invincible, lifetime := 298 }] }

def c2G3 : SnakeGame :=
  { startState with snake := [(23, 15), (22, 15), (21, 15)], food := (30, 25), score := 20, invincible := true, invincible_timer := 299 }

/-- The reachable invincible state refuting claim C2: about to move left into
its own body after an up-then-left double key within one frame. -/
def c2Bad : SnakeGame := { c2G3 with direction := Direction.LEFT }

/-- Its successor: the tick completes while Playing, with `(22, 15)` now
appearing twice in the body. -/
def c2Final : SnakeGame :=
  { c2G3 with direction := Direction.LEFT, snake := [(22, 15), (23, 15), (22, 15)], invincible_timer := 298 }

/-- Claim C2 counterexample: a reachable state (grown twice, invincibility
power-up consumed, direction turned by two key events in one frame) whose
next update completes without ending the game yet leaves the snake with a
duplicated segment position — the no-duplicate invariant fails on invincible
ticks. -/
theorem C2_counterexample :
    Reach c2Bad ∧
    c2Bad.state = GameState.PLAYING ∧
    c2Bad.invincible = true ∧
    c2Bad.snake.Nodup ∧
    update c2Bad nilOracle = some c2Final ∧
    c2Final.state = GameState.PLAYING ∧
    ¬ c2Final.snake.Nodup := by
  refine ⟨?_, by decide, by decide, by decide, by decide, by decide, by decide⟩
  have h0 : Reach startState := Reach.init [(21, 15)] 0 startState (by decide)
  have h1 : Reach c2G1 := Reach.tick startState c2O1 c2G1 h0 (by decide)
  have h2 : Reach c2G2 := Reach.tick c2G1 c2O2 c2G2 h1 (by decide)
  have h3 : Reach c2G3 := Reach.tick c2G2 nilOracle c2G3 h2 (by decide)
  have h4 := Reach.key _ Key.up h3
  have h5 := Reach.key _ Key.left h4
  have he : handle_key (handle_key c2G3 Key.up) Key.left = c2Bad := by decide
  rw [he] at h5
  exact h5

end Snake

namespace Snake

/-- Claim C3 (amended): on a tick while Playing that completes without ending
the game, if the (possibly wrapped) new head equals the Food position then
the snake length increases by exactly 1 and the regenerated Food position is
disjoint from every snake segment, and the score increases by exactly 10
provided no score power-up sits at the new head (each such power-up consumed
on the same tick adds a further 50); otherwise the length is unchanged. -/
theorem C3_food_tick (g g2 : SnakeGame) (o : Oracle) (hx hy : Int) (t : List (Int × Int))
    (hst : g.state = GameState.PLAYING)
    (hsn : g.snake = (hx, hy) :: t)
    (hup : update g o = some g2)
    (hst2 : g2.state = GameState.PLAYING) :
    (effectiveHead (hx, hy) g.direction = g.food →
      g2.snake.length = g.snake.length + 1 ∧
      g2.food ∉ g2.snake ∧
      ((∀ p ∈ g.powerups, (p.x, p.y) = effectiveHead (hx, hy) g.direction →
          p.type ≠ PowerUpType.score) →
        g2.score = g.score + 10)) ∧
    (effectiveHead (hx, hy) g.direction ≠ g.food →
      g2.snake.length = g.snake.length) := by
  by_cases hb : outOfBounds (hx + g.direction.delta.1, hy + g.direction.delta.2)
  · have he : effectiveHead (hx, hy) g.direction =
        wrapHead (hx + g.direction.delta.1, hy + g.direction.delta.2) := by
      unfold effectiveHead
      rw [if_pos hb]
    cases hinv : g.invincible with
    | false =>
        rw [update_collision g o hx hy t hst hsn hinv (Or.inl hb)] at hup
        injection hup with hup
        rw [← hup] at hst2
        exact absurd hst2 (game_over_state_not_playing g)
    | true =>
        rw [update_oob_invincible g o hx hy t hst hsn hinv hb] at hup
        rw [he]
        exact moveAndEat_food_facts g g2 o _ hup hst2
  · have he : effectiveHead (hx, hy) g.direction =
        (hx + g.direction.delta.1, hy + g.direction.delta.2) := by
      unfold effectiveHead
      rw [if_neg hb]
    rw [update_inbounds g o hx hy t hst hsn hb] at hup
    rw [he]
    exact moveAndEat_food_facts g g2 o _ hup hst2

theorem C3_witness :
    midState.snake.length = startState.snake.length + 1 ∧
    midState.food ∉ midState.snake ∧
    midState.score = startState.score + 10 := by
  have h := C3_food_tick startState midState foodOracle 20 15 [] (by decide) (by decide)
    (by decide) (by decide)
  have h2 := h.1 (by decide)
  exact ⟨h2.1, h2.2.1, h2.2.2 (fun p hp => absurd hp (List.not_mem_nil p))⟩

/-- Oracle of the tick that eats the first food and spawns the score power-up
at `(25, 15)`, which at that moment differs from the food position. -/
def c3O1 : Oracle :=
  { foodCands := [(22, 15)], puSpawn := true, puPos := (25, 15), puType := PowerUpType.score }

/-- Oracle of the tick that eats the second food and relocates the food onto
the score power-up cell `(25, 15)` (food regeneration only avoids the snake). -/
def c3O2 : Oracle :=
  { foodCands := [(25, 15)], puSpawn := false, puPos := (0, 0), puType := PowerUpType.speed }

/-- Oracle of the final tick, relocating the eaten food to `(0, 0)`. -/
def c3O5 : Oracle :=
  { foodCands := [(0, 0)], puSpawn := false, puPos := (0, 0), puType := PowerUpType.speed }

def c3G1 : SnakeGame :=
  { startState with snake := [(21, 15), (20, 15)], food := (22, 15), score := 10, powerups := [{ x := 25, y := 15, type := PowerUpType.score, lifetime := 299 }] }

def c3G2 : SnakeGame :=
  { startState with snake := [(22, 15), (21, 15), (20, 15)], food := (25, 15), score := 20, powerups := [{ x := 25, y := 15, type := PowerUpType.score, lifetime := 298 }] }

def c3G3 : SnakeGame :=
  { startState with snake := [(23, 15), (22, 15), (21, 15)], food := (25, 15), score := 20, powerups := [{ x := 25, y := 15, type := PowerUpType.score, lifetime := 297 }] }

/-- The reachable state refuting claim C3: the food and a score power-up
share the cell `(25, 15)` directly ahead of the snake. -/
def c3G4 : SnakeGame :=
  { startState with snake := [(24, 15), (23, 15), (22, 15)], food := (25, 15), score := 20, powerups := [{ x := 25, y := 15, type := PowerUpType.score, lifetime := 296 }] }

/-- Its successor: the head landed on the food, yet the score rose by 60. -/
def c3Final : SnakeGame :=
  { startState with snake := [(25, 15), (24, 15), (23, 15), (22, 15)], food := (0, 0), score := 80 }

/-- Claim C3 counterexample: from a reachable state where the food cell also
carries a score power-up (food relocation only avoids the snake), the tick
whose new head lands on the food increases the score by 60, not by exactly
10 as the claim states; length still grows by 1 and the game continues. -/
theorem C3_counterexample :
    Reach c3G4 ∧
    c3G4.state = GameState.PLAYING ∧
    (24 + c3G4.direction.delta.1, 15 + c3G4.direction.delta.2) = c3G4.food ∧
    update c3G4 c3O5 = some c3Final ∧
    c3Final.state = GameState.PLAYING ∧
    c3Final.snake.length = c3G4.snake.length + 1 ∧
    c3Final.score = c3G4.score + 60 ∧
    (10 : Int) ≠ 60 := by
  refine ⟨?_, by decide, by decide, by decide, by decide, by decide, by decide, by decide⟩
  have h0 : Reach startState := Reach.init [(21, 15)] 0 startState (by decide)
  have h1 : Reach c3G1 := Reach.tick startState c3O1 c3G1 h0 (by decide)
  have h2 : Reach c3G2 := Reach.tick c3G1 c3O2 c3G2 h1 (by decide)
  have h3 : Reach c3G3 := Reach.tick c3G2 nilOracle c3G3 h2 (by decide)
  have h4 : Reach c3G4 := Reach.tick c3G3 nilOracle c3G4 h3 (by decide)
  exact h4

end Snake

namespace Snake

/-- Claim C8 (amended): whenever `generate_food` returns a position it is not
occupied by any snake segment; but when the snake occupies every cell of the
grid, no sequence of in-grid random draws ever makes the loop return — the
source has no `NoSpaceAvailable` condition and simply never terminates. -/
theorem C8_generate_food_behavior :
    (∀ (cands s : List (Int × Int)) (f : Int × Int),
      generate_food cands s = some f → f ∉ s) ∧
    (∀ cands : List (Int × Int), (∀ c ∈ cands, c ∈ gridCells) →
      generate_food cands gridCells = none) :=
  ⟨generate_food_not_mem, generate_food_full⟩

theorem C8_witness :
    ((0, 0) : Int × Int) ∉ ([(1, 1)] : List (Int × Int)) ∧
    generate_food [] gridCells = none :=
  ⟨C8_generate_food_behavior.1 [(0, 0)] [(1, 1)] (0, 0) rfl,
    C8_generate_food_behavior.2 [] (fun c hc => absurd hc (List.not_mem_nil c))⟩

/-- Claim C8 counterexample: with the grid fully occupied (`gridCells` as the
snake) there is no sequence of in-grid draws on which `generate_food`
returns: the `while True` loop runs forever instead of surfacing a
`NoSpaceAvailable` condition. -/
theorem C8_counterexample :
    ¬ ∃ cands : List (Int × Int),
        (∀ c ∈ cands, c ∈ gridCells) ∧ generate_food cands gridCells ≠ none := by
  rintro ⟨cands, hc, hne⟩
  exact hne (generate_food_full cands hc)

end Snake

namespace Life

theorem getD_map_range {β : Type} (h : Nat) (f : Nat → β) (y : Nat) (d : β) (hy : y < h) :
    ((List.range h).map f).getD y d = f y := by
  rw [List.getD_eq_getElem?_getD, List.getElem?_map, List.getElem?_range hy]
  rfl

/-- Claim C9: for every grid and every in-range cell, the cell of
`next_generation grid` is alive (equals 1) iff the old cell was alive with
exactly 2 or 3 live toroidal neighbors, or dead (equals 0) with exactly 3;
the new value is computed entirely from the old grid. -/
theorem C9_life_step (grid : List (List Nat)) (x y : Nat)
    (hx : x < (grid.headD []).length) (hy : y < grid.length) :
    (((next_generation grid).getD y []).getD x 0 = 1 ↔
      (((grid.getD y []).getD x 0 = 1 ∧
          (count_neighbors grid x y = 2 ∨ count_neighbors grid x y = 3)) ∨
        ((grid.getD y []).getD x 0 = 0 ∧ count_neighbors grid x y = 3))) := by
  unfold next_generation
  rw [getD_map_range _ _ _ _ hy, getD_map_range _ _ _ _ hx]
  by_cases h1 : (grid.getD y []).getD x 0 = 1 ∧
      (count_neighbors grid x y = 2 ∨ count_neighbors grid x y = 3)
  · rw [if_pos h1]
    exact iff_of_true rfl (Or.inl h1)
  · rw [if_neg h1]
    by_cases h2 : (grid.getD y []).getD x 0 = 0 ∧ count_neighbors grid x y = 3
    · rw [if_pos h2]
      exact iff_of_true rfl (Or.inr h2)
    · rw [if_neg h2]
      refine iff_of_false (by decide) ?_
      rintro (h | h)
      · exact h1 h
      · exact h2 h

theorem C9_witness :
    (((next_generation [[1, 1], [1, 0]]).getD 0 []).getD 0 0 = 1 ↔
      ((([[1, 1], [1, 0]].getD 0 []).getD 0 0 = 1 ∧
          (count_neighbors [[1, 1], [1, 0]] 0 0 = 2 ∨
            count_neighbors [[1, 1], [1, 0]] 0 0 = 3)) ∨
        (([[1, 1], [1, 0]].getD 0 []).getD 0 0 = 0 ∧
          count_neighbors [[1, 1], [1, 0]] 0 0 = 3))) :=
  C9_life_step [[1, 1], [1, 0]] 0 0 (by decide) (by decide)

end Life
